import Mathlib

/-!
# Verification of the pycamt CAMT.053 parser (`src/pycamt/parser.py`)

Shallow embedding of the extraction core of `Camt053Parser`.  The XML
document is modelled as a generic tree (`Node`): tag name, optional text,
attribute list, ordered children — exactly the information the parser
reads through lxml.  Namespace resolution is transparent here: the parser
passes the document's nsmap to every lookup so that unprefixed tags match
the default namespace; tags are therefore modelled as plain strings.

Python idioms are embedded as follows:
* `element.text` is `Option String` (`none` = Python `None`, e.g. an
  empty element);
* a Python dict with `Optional[str]` values is an association list
  `PyDict` with distinct keys; a key bound to `none` models a key bound
  to Python `None`, absence from the list models absence of the key;
* code that can raise runs in `Except PyError`; attribute access on the
  `None` returned by a failed `find` raises `AttributeError`, and the
  parser's own `Camt053ParseError` is the second constructor;
* the limited XPath dialect used by the parser (`.//A//B`, `.//BookgDt//*`)
  is a fold of descendant-filter steps over the preorder descendant list,
  matching ElementPath's chained-iteration semantics and document order.
-/

/-- A generic XML element: tag, optional text, attributes, ordered children. -/
inductive Node where
  | mk : String → Option String → List (String × String) → List Node → Node

def Node.tag : Node → String
  | .mk t _ _ _ => t

def Node.text : Node → Option String
  | .mk _ x _ _ => x

def Node.attrib : Node → List (String × String)
  | .mk _ _ a _ => a

def Node.children : Node → List Node
  | .mk _ _ _ c => c

mutual
/-- All proper descendants of a node in document (preorder) order,
mirroring lxml's `element.iter()` minus the element itself. -/
def Node.descendants : Node → List Node
  | .mk _ _ _ cs => descendantsOfList cs
/-- Preorder listing of a forest: each root followed by its descendants. -/
def descendantsOfList : List Node → List Node
  | [] => []
  | c :: cs => c :: (Node.descendants c ++ descendantsOfList cs)
end

/-- One step of the ElementPath dialect used by the parser: `//Tag`
selects descendants with a given tag, `//*` (used for `.//BookgDt//*`
and `.//ValDt//*`) selects all descendants. -/
inductive Step where
  | tag : String → Step
  | wild : Step

def Step.matches : Step → Node → Bool
  | .tag t, n => n.tag == t
  | .wild, _ => true

/-- `findall` for a chain of descendant steps: models
`element.findall(".//A//B")` as ElementPath evaluates it — each step
replaces the current node set by the concatenation of the matching
descendants of each node, in document order. -/
def findallP (n : Node) (p : List Step) : List Node :=
  p.foldl (fun acc s => acc.flatMap (fun m => m.descendants.filter (fun d => s.matches d))) [n]

/-- `find`: the first match of `findall`, or `none` (lxml returns `None`). -/
def findP (n : Node) (p : List Step) : Option Node :=
  (findallP n p).head?

/-- A Python `Optional[str]` value: `none` is Python `None`. -/
abbrev PyVal := Option String

/-- A Python dict mapping string keys to `Optional[str]` values; keys are
distinct by construction in the parser's dict literals. -/
abbrev PyDict := List (String × PyVal)

/-- `d[k]` lookup: `some v` when the key is present (with `v` possibly the
Python `None`), `none` when the key is absent. -/
def PyDict.lookup (d : PyDict) (k : String) : Option PyVal :=
  (d.find? (fun p => p.1 == k)).map (fun p => p.2)

/-- `k in d` for a Python dict. -/
def PyDict.hasKey (d : PyDict) (k : String) : Bool :=
  d.any (fun p => p.1 == k)

/-- Python `d[k] = v`: overwrite in place when the key exists, append otherwise. -/
def PyDict.set (d : PyDict) (k : String) (v : PyVal) : PyDict :=
  if d.hasKey k then d.map (fun p => if p.1 == k then (k, v) else p)
  else d ++ [(k, v)]

/-- Python `{**a, **b}`: a's keys in order with b's value winning on
collision, followed by b's new keys in order. -/
def PyDict.merge (a b : PyDict) : PyDict :=
  (a.map fun p =>
    match b.lookup p.1 with
    | some w => (p.1, w)
    | none => p) ++
  b.filter (fun p => ¬ a.hasKey p.1)

/-- Lookup that identifies "absent" and "present but Python `None`":
returns `some s` only when the key is present with a string value.
Convenient for stating properties of the sparse (filtered) records. -/
def PyDict.get? (d : PyDict) (k : String) : Option String :=
  match d.lookup k with
  | some (some s) => some s
  | _ => none

/-- The two kinds of exception the extraction core can raise:
Python's `AttributeError` (from `None.text` after a failed `find`) and
the parser's own `Camt053ParseError`. -/
inductive PyError where
  | attributeError
  | camt053ParseError : String → PyError
deriving DecidableEq

/-- Does the computation fail with the parser's structural parse error? -/
def raisesParseError {α : Type} : Except PyError α → Bool
  | .error (.camt053ParseError _) => true
  | _ => false

/-- Python truthiness of an `Optional[str]`: `None` and `""` are falsy. -/
def pyTruthy : PyVal → Bool
  | none => false
  | some s => s ≠ ""

/-- `element.find(path).text` — raises `AttributeError` when the node is
missing, otherwise yields its (possibly `None`) text. -/
def requiredText (n : Node) (p : List Step) : Except PyError PyVal :=
  match findP n p with
  | none => .error .attributeError
  | some m => .ok m.text

/-- The ubiquitous `x.text if x is not None else None` pattern. -/
def optionalText (n : Node) (p : List Step) : PyVal :=
  (findP n p).bind Node.text

/-- `element.attrib.get(k)`. -/
def attribGet (n : Node) (k : String) : PyVal :=
  (n.attrib.find? (fun p => p.1 == k)).map (fun p => p.2)

/-- Python `str.strip()` on ASCII whitespace: drop leading and trailing
whitespace characters. -/
def pyStrip (s : String) : String :=
  String.mk (((s.toList.dropWhile Char.isWhitespace).reverse.dropWhile
    Char.isWhitespace).reverse)

/-- `Camt053Parser._parse_status`: two-tier fallback — the coded child's
text if a `Cd` descendant exists, else the status node's own text;
`None` when the status node itself is absent. -/
def parseStatus (entry : Option Node) : PyVal :=
  match entry with
  | none => none
  | some e =>
    match findP e [.tag "Cd"] with
    | some childElement => childElement.text
    | none => e.text

/-- `Camt053Parser._extract_common_entry_data`: the 13-key common record of
an entry.  The five lookups written as bare `find(...).text` (or
`.attrib`) raise `AttributeError` when the node is missing; the others
use the `if ... is not None else None` guard and store `None`. -/
def extractCommonEntryData (entry statement : Node) : Except PyError PyDict := do
  let transactionID ← requiredText entry [.tag "AcctSvcrRef"]
  let accountIBAN := optionalText statement [.tag "Acct", .tag "Id", .tag "IBAN"]
  let amount ← requiredText entry [.tag "Amt"]
  let currency ←
    match findP entry [.tag "Amt"] with
    | none => Except.error PyError.attributeError
    | some m => Except.ok (attribGet m "Ccy")
  let creditDebitIndicator ← requiredText entry [.tag "CdtDbtInd"]
  let reversalIndicator := optionalText entry [.tag "RvslInd"]
  let status := parseStatus (findP entry [.tag "Sts"])
  let bookingDate ← requiredText entry [.tag "BookgDt", .wild]
  let valueDate ← requiredText entry [.tag "ValDt", .wild]
  let bankTransactionCode := optionalText entry [.tag "BkTxCd", .tag "Domn", .tag "Cd"]
  let transactionFamilyCode := optionalText entry [.tag "BkTxCd", .tag "Domn", .tag "Fmly", .tag "Cd"]
  let transactionSubFamilyCode :=
    optionalText entry [.tag "BkTxCd", .tag "Domn", .tag "Fmly", .tag "SubFmlyCd"]
  let additionalEntryInformation := optionalText entry [.tag "AddtlNtryInf"]
  return [("TransactionID", transactionID),
          ("AccountIBAN", accountIBAN),
          ("Amount", amount),
          ("Currency", currency),
          ("CreditDebitIndicator", creditDebitIndicator),
          ("ReversalIndicator", reversalIndicator),
          ("Status", status),
          ("BookingDate", bookingDate),
          ("ValueDate", valueDate),
          ("BankTransactionCode", bankTransactionCode),
          ("TransactionFamilyCode", transactionFamilyCode),
          ("TransactionSubFamilyCode", transactionSubFamilyCode),
          ("AdditionalEntryInformation", additionalEntryInformation)]

/-- The key set of the common record, in dict-literal order. -/
def commonKeys : List String :=
  ["TransactionID", "AccountIBAN", "Amount", "Currency", "CreditDebitIndicator",
   "ReversalIndicator", "Status", "BookingDate", "ValueDate", "BankTransactionCode",
   "TransactionFamilyCode", "TransactionSubFamilyCode", "AdditionalEntryInformation"]

/-- The `RemittanceInformationFull` value of `_extract_transaction_details`:
`" ".join(rinfo.text.strip() for rinfo in tx_detail.findall(".//RmtInf//Ustrd") if rinfo.text)`
when the `findall` list is non-empty, else `None`.  The generator filters
on the truthiness of the untrimmed text and strips afterwards
(`pyStrip` models `str.strip()` on ASCII whitespace). -/
def remittanceInformationFull (txDetail : Node) : PyVal :=
  let ustrds := findallP txDetail [.tag "RmtInf", .tag "Ustrd"]
  if ustrds.isEmpty then none
  else some (String.intercalate " "
    ((ustrds.filter (fun rinfo => pyTruthy rinfo.text)).map
      (fun rinfo => pyStrip (rinfo.text.getD ""))))

/-- The dict literal `data = {...}` of `_extract_transaction_details`:
ten keys, each an absent-tolerant lookup (value `None` when the source
node is missing). -/
def detailData (txDetail : Node) : PyDict :=
  [("EndToEndId", optionalText txDetail [.tag "Refs", .tag "EndToEndId"]),
   ("MandateId", optionalText txDetail [.tag "Refs", .tag "MndtId"]),
   ("Amount", optionalText txDetail [.tag "Amt"]),
   ("CreditorName", optionalText txDetail [.tag "RltdPties", .tag "Cdtr", .tag "Nm"]),
   ("CreditorIBAN", optionalText txDetail [.tag "RltdPties", .tag "CdtrAcct", .tag "Id", .tag "IBAN"]),
   ("DebtorName", optionalText txDetail [.tag "RltdPties", .tag "Dbtr", .tag "Nm"]),
   ("DebtorIBAN", optionalText txDetail [.tag "RltdPties", .tag "DbtrAcct", .tag "Id", .tag "IBAN"]),
   ("PurposeCode", optionalText txDetail [.tag "Purp", .tag "Cd"]),
   ("RemittanceInformation", optionalText txDetail [.tag "RmtInf", .tag "Ustrd"]),
   ("RemittanceInformationFull", remittanceInformationFull txDetail)]

/-- `Camt053Parser._extract_transaction_details`: builds the detail dict,
overrides the remittance fields when a structured block exists, then
filters out every key whose value is `None` (the sparse-dictionary step). -/
def extractTransactionDetails (txDetail : Node) : PyDict :=
  let data := detailData txDetail
  let data :=
    match findP txDetail [.tag "RmtInf", .tag "Strd"] with
    | none => data
    | some structuredRemittanceElem =>
      let refElem := findP structuredRemittanceElem [.tag "CdtrRefInf", .tag "Ref"]
      let additionalRefElem := findP structuredRemittanceElem [.tag "AddtlRmtInf"]
      (data.set "RemittanceInformation" (refElem.bind Node.text)).set
        "AdditionalRemittanceInformation" (additionalRefElem.bind Node.text)
  data.filter (fun p => p.2.isSome)

/-- `Camt053Parser._extract_transaction`: the 1-to-0 / 1-to-1 / 1-to-n
fan-out of one entry into transaction records. -/
def extractTransaction (entry statement : Node) : Except PyError (List PyDict) := do
  let commonData ← extractCommonEntryData entry statement
  let entryDetails := findallP entry [.tag "NtryDtls"]
  if entryDetails.isEmpty then
    return [commonData]
  else
    return entryDetails.flatMap (fun ntryDetail =>
      match findallP ntryDetail [.tag "TxDtls"] with
      | [] => [commonData]
      | [txd] => [PyDict.merge commonData (extractTransactionDetails txd)]
      | txDetails => txDetails.map
          (fun txDetail => PyDict.merge commonData (extractTransactionDetails txDetail)))

/-- `Camt053Parser._find_statements_or_reports`: the `Stmt` shape first,
the `Rpt` shape only when no `Stmt` matched, `Camt053ParseError` when
both yield zero matches. -/
def findStatementsOrReports (tree : Node) : Except PyError (List Node) :=
  let stmts := findallP tree [.tag "Stmt"]
  if stmts.length ≠ 0 then .ok stmts
  else
    let rpts := findallP tree [.tag "Rpt"]
    if rpts.length ≠ 0 then .ok rpts
    else .error (.camt053ParseError "Neither 'Stmt' nor 'Rpt' element found")

/-- The inner loop of `get_transactions`: `extend` the accumulator with the
records of each entry of one statement, in document order. -/
def extractEntries (statement : Node) : List Node → Except PyError (List PyDict)
  | [] => .ok []
  | entry :: rest => do
    let ts ← extractTransaction entry statement
    let more ← extractEntries statement rest
    return ts ++ more

/-- The outer loop of `get_transactions` over the statement containers. -/
def extractStatements : List Node → Except PyError (List PyDict)
  | [] => .ok []
  | statement :: rest => do
    let ts ← extractEntries statement (findallP statement [.tag "Ntry"])
    let more ← extractStatements rest
    return ts ++ more

/-- `Camt053Parser.get_transactions`. -/
def getTransactions (tree : Node) : Except PyError (List PyDict) := do
  let statements ← findStatementsOrReports tree
  extractStatements statements

/-- `Camt053Parser._extract_group_header`: both children are read with the
bare `find(...).text` pattern, so a missing child raises `AttributeError`. -/
def extractGroupHeader (grpHdr : Node) : Except PyError PyDict := do
  let msgId ← requiredText grpHdr [.tag "MsgId"]
  let creDtTm ← requiredText grpHdr [.tag "CreDtTm"]
  return [("MessageID", msgId), ("CreationDateTime", creDtTm)]

/-- `Camt053Parser.get_group_header`: empty record when no `GrpHdr` node
exists anywhere in the tree. -/
def getGroupHeader (tree : Node) : Except PyError PyDict :=
  match findP tree [.tag "GrpHdr"] with
  | some grpHdr => extractGroupHeader grpHdr
  | none => .ok []

/-- Python `float(s)` on a plain decimal literal, returning the sign and
the exact value as `mantissa / 10 ^ scale`; `none` models the
`ValueError` that `contextlib.suppress` swallows in `get_statement_info`.
Modelled for the decimal-literal forms `[ws] [sign] (digits [. digits] | . digits) [ws]`;
exotic accepted spellings of `float` (exponents, `inf`, `nan`,
underscores) are outside the inputs the balance code is specified on. -/
def pyFloatParse? (s : String) : Option (Bool × Nat × Nat) :=
  let cs := (pyStrip s).toList
  let signAndRest : Bool × List Char :=
    match cs with
    | '-' :: rest => (true, rest)
    | '+' :: rest => (false, rest)
    | _ => (false, cs)
  let neg := signAndRest.1
  let body := signAndRest.2
  let intPart := body.takeWhile Char.isDigit
  let afterInt := body.dropWhile Char.isDigit
  match afterInt with
  | [] =>
    if intPart.isEmpty then none
    else some (neg, intPart.foldl (fun a c => a * 10 + (c.toNat - 48)) 0, 0)
  | '.' :: fracPart =>
    if fracPart.all Char.isDigit ∧ ¬ (intPart.isEmpty ∧ fracPart.isEmpty) then
      some (neg, (intPart ++ fracPart).foldl (fun a c => a * 10 + (c.toNat - 48)) 0,
            fracPart.length)
    else none
  | _ => none

/-- Strip factors of ten: the minimal decimal form of `mag / 10 ^ scale`. -/
def reduceDec (mag : Nat) : Nat → Nat × Nat
  | 0 => (mag, 0)
  | k + 1 => if mag % 10 == 0 then reduceDec (mag / 10) k else (mag, k + 1)

/-- Python `str` of the float with sign `neg` and magnitude `mag / 10 ^ scale`:
the shortest round-tripping decimal, which for an exactly representable
decimal in the non-exponent display range is its minimal decimal form,
with `.0` appended to integral values (`str(-100.0) == "-100.0"`,
`str(-0.0) == "-0.0"`). -/
def pyFloatStr (neg : Bool) (mag scale : Nat) : String :=
  let reduced := reduceDec mag scale
  let m := reduced.1
  let k := reduced.2
  let sign := if neg then "-" else ""
  if k == 0 then sign ++ Nat.repr m ++ ".0"
  else
    let intPart := m / 10 ^ k
    let fracDigits := Nat.repr (m % 10 ^ k)
    let padded := String.mk (List.replicate (k - fracDigits.length) '0') ++ fracDigits
    sign ++ Nat.repr intPart ++ "." ++ padded

/-- Lines 404–407 of `parser.py`:
`if amount_text and cdt_dbt_indicator == "DBIT": with contextlib.suppress(ValueError): amount_text = str(-float(amount_text))`. -/
def applyBalanceSign (amountText cdtDbtIndicator : PyVal) : PyVal :=
  match amountText with
  | none => none
  | some s =>
    if s ≠ "" ∧ cdtDbtIndicator = some "DBIT" then
      match pyFloatParse? s with
      | some (neg, mag, scale) => some (pyFloatStr (!neg) mag scale)
      | none => some s
    else some s

/-- The per-balance-node body of the loop in `get_statement_info`:
reads type code, amount, indicator and date, applies the sign rule, and
stores opening/closing fields by type (any other type is ignored). -/
def extractBalanceInto (result : PyDict) (balanceElem : Node) : PyDict :=
  let balanceType := optionalText balanceElem [.tag "Tp", .tag "CdOrPrtry", .tag "Cd"]
  let amountText := optionalText balanceElem [.tag "Amt"]
  let cdtDbtIndicator := optionalText balanceElem [.tag "CdtDbtInd"]
  let amountText := applyBalanceSign amountText cdtDbtIndicator
  let dateText := optionalText balanceElem [.tag "Dt", .tag "Dt"]
  let dateText :=
    match findP balanceElem [.tag "Dt", .tag "DtTm"] with
    | some dateTimeElem => dateTimeElem.text
    | none => dateText
  if balanceType = some "OPBD" then
    (result.set "OpeningBalance" amountText).set "OpeningBalanceDate" dateText
  else if balanceType = some "CLBD" then
    (result.set "ClosingBalance" amountText).set "ClosingBalanceDate" dateText
  else result

/-- `Camt053Parser.get_statement_info`: one six-key record per statement
container, balance nodes folded in document order (last write wins). -/
def getStatementInfo (tree : Node) : Except PyError (List PyDict) := do
  let statements ← findStatementsOrReports tree
  return statements.map (fun stmt =>
    let ibanText := optionalText stmt [.tag "Acct", .tag "Id", .tag "IBAN"]
    let currencyText := optionalText stmt [.tag "Acct", .tag "Ccy"]
    let result : PyDict :=
      [("IBAN", ibanText), ("Currency", currencyText),
       ("OpeningBalance", none), ("ClosingBalance", none),
       ("OpeningBalanceDate", none), ("ClosingBalanceDate", none)]
    (findallP stmt [.tag "Bal"]).foldl extractBalanceInto result)

/-- The entry fan-out exactly as the specification states it (§4.5): zero
groupings give the common record unmodified; a grouping with zero
transaction-details gives the common record alone; one detail gives one
merged record; `n ≥ 2` details give one merged record per detail. -/
def specFanOut (common : PyDict) (entry : Node) : List PyDict :=
  match findallP entry [.tag "NtryDtls"] with
  | [] => [common]
  | groupings => groupings.flatMap (fun grouping =>
    match findallP grouping [.tag "TxDtls"] with
    | [] => [common]
    | [txd] => [PyDict.merge common (extractTransactionDetails txd)]
    | txds => txds.map (fun txd => PyDict.merge common (extractTransactionDetails txd)))

/-- The `RemittanceInformationFull` rule exactly as the claim states it:
all lines, each trimmed, the non-empty ones joined by a single space;
absent for zero lines.  (Stated over the list of line texts, to be
compared with what the code computes.) -/
def specRemittanceFull (lines : List String) : Option String :=
  if lines = [] then none
  else some (String.intercalate " " ((lines.map pyStrip).filter (fun s => s ≠ "")))

/-- The key set `_extract_transaction_details` can ever emit. -/
def detailKeys : List String :=
  ["EndToEndId", "MandateId", "Amount", "CreditorName", "CreditorIBAN", "DebtorName",
   "DebtorIBAN", "PurposeCode", "RemittanceInformation", "RemittanceInformationFull",
   "AdditionalRemittanceInformation"]

/-- Element with no text and no attributes. -/
def elN (t : String) (cs : List Node) : Node := .mk t none [] cs

/-- Leaf element carrying text. -/
def elT (t : String) (s : String) : Node := .mk t (some s) [] []

/-- A minimal valid entry that omits every optional node (no `RvslInd`,
no `Sts`, no `BkTxCd`, no `AddtlNtryInf`, no `NtryDtls`). -/
def c1entry : Node :=
  elN "Ntry" [Node.mk "Amt" (some "500.00") [("Ccy", "EUR")] [],
    elT "CdtDbtInd" "CRDT", elN "BookgDt" [elT "Dt" "2020-06-23"],
    elN "ValDt" [elT "Dt" "2020-06-23"], elT "AcctSvcrRef" "123"]

def c1doc : Node := elN "Document" [elN "BkToCstmrStmt" [elN "Stmt" [c1entry]]]

/-- What the code returns for `c1doc`'s single entry: all 13 common keys,
the optional ones bound to `None`. -/
def c1record : PyDict :=
  [("TransactionID", some "123"), ("AccountIBAN", none), ("Amount", some "500.00"),
   ("Currency", some "EUR"), ("CreditDebitIndicator", some "CRDT"),
   ("ReversalIndicator", none), ("Status", none), ("BookingDate", some "2020-06-23"),
   ("ValueDate", some "2020-06-23"), ("BankTransactionCode", none),
   ("TransactionFamilyCode", none), ("TransactionSubFamilyCode", none),
   ("AdditionalEntryInformation", none)]

/-- A statement with two debit balances: an opening balance whose amount
text is not numeric and a closing balance with amount text `"100.00"`. -/
def c2doc : Node :=
  elN "Document" [elN "BkToCstmrStmt" [elN "Stmt" [
    elN "Bal" [elN "Tp" [elN "CdOrPrtry" [elT "Cd" "OPBD"]],
      elT "Amt" "abc", elT "CdtDbtInd" "DBIT", elN "Dt" [elT "Dt" "2025-01-31"]],
    elN "Bal" [elN "Tp" [elN "CdOrPrtry" [elT "Cd" "CLBD"]],
      elT "Amt" "100.00", elT "CdtDbtInd" "DBIT", elN "Dt" [elT "Dt" "2025-02-01"]]]]]

def c2result : PyDict :=
  [("IBAN", none), ("Currency", none), ("OpeningBalance", some "abc"),
   ("ClosingBalance", some "-100.0"), ("OpeningBalanceDate", some "2025-01-31"),
   ("ClosingBalanceDate", some "2025-02-01")]

/-- An entry with every required node except `AcctSvcrRef`. -/
def c3entry : Node :=
  elN "Ntry" [Node.mk "Amt" (some "500.00") [("Ccy", "EUR")] [],
    elT "CdtDbtInd" "CRDT", elN "BookgDt" [elT "Dt" "2020-06-23"],
    elN "ValDt" [elT "Dt" "2020-06-23"]]

def c3stmt : Node := elN "Stmt" [c3entry]

def c3doc : Node := elN "Document" [elN "BkToCstmrStmt" [c3stmt]]

/-- An entry whose single grouping carries two transaction-details. -/
def c4entry : Node :=
  elN "Ntry" [Node.mk "Amt" (some "30.00") [("Ccy", "EUR")] [],
    elT "CdtDbtInd" "DBIT", elN "BookgDt" [elT "Dt" "2021-01-01"],
    elN "ValDt" [elT "Dt" "2021-01-02"], elT "AcctSvcrRef" "REF9",
    elN "NtryDtls" [
      elN "TxDtls" [elN "Refs" [elT "EndToEndId" "E1"], elT "Amt" "10.00"],
      elN "TxDtls" [elN "Refs" [elT "EndToEndId" "E2"], elT "Amt" "20.00"]]]

def c4stmt : Node :=
  elN "Stmt" [elN "Acct" [elN "Id" [elT "IBAN" "DE00"]], c4entry]

/-- The common record `_extract_common_entry_data` yields for `c4entry`. -/
def c4common : PyDict :=
  [("TransactionID", some "REF9"), ("AccountIBAN", some "DE00"), ("Amount", some "30.00"),
   ("Currency", some "EUR"), ("CreditDebitIndicator", some "DBIT"),
   ("ReversalIndicator", none), ("Status", none), ("BookingDate", some "2021-01-01"),
   ("ValueDate", some "2021-01-02"), ("BankTransactionCode", none),
   ("TransactionFamilyCode", none), ("TransactionSubFamilyCode", none),
   ("AdditionalEntryInformation", none)]

/-- The structured block's free-text child, present but carrying no text
(an empty element has `text = None`). -/
def c5cexaddtl : Node := elN "AddtlRmtInf" []

def c5cexstrd : Node := elN "Strd" [elN "CdtrRefInf" [elT "Ref" "R1"], c5cexaddtl]

/-- A transaction-detail with unstructured text and a structured block
whose free-text child exists but has no text. -/
def c5cexdetail : Node := elN "TxDtls" [elN "RmtInf" [elT "Ustrd" "unstr", c5cexstrd]]

def c5wstrd : Node := elN "Strd" [elN "CdtrRefInf" [elT "Ref" "REF1"]]

/-- A transaction-detail with two unstructured lines and a structured
block carrying reference `REF1` and no free-text child. -/
def c5wdetail : Node :=
  elN "TxDtls" [elN "RmtInf" [elT "Ustrd" "hello", elT "Ustrd" "world", c5wstrd]]

/-- Unstructured lines `"a"`, `" "`, `"b"`: the middle line is non-empty
before trimming and trims to the empty string. -/
def c6detail : Node :=
  elN "TxDtls" [elN "RmtInf" [elT "Ustrd" "a", elT "Ustrd" " ", elT "Ustrd" "b"]]

def c6abc : Node :=
  elN "TxDtls" [elN "RmtInf" [elT "Ustrd" "a", elT "Ustrd" "b", elT "Ustrd" "c"]]

def c6x : Node := elN "TxDtls" [elN "RmtInf" [elT "Ustrd" "x"]]

def c6zero : Node := elN "TxDtls" [elN "Refs" [elT "EndToEndId" "E"]]

/-- A header node with a creation timestamp but no `MsgId` child. -/
def c7hdr : Node := elN "GrpHdr" [elT "CreDtTm" "2020-06-23T18:56:25.64Z"]

def c7doc : Node := elN "Document" [elN "BkToCstmrStmt" [c7hdr]]

/-- A document with no header node anywhere. -/
def c7nohdr : Node := elN "Document" [elN "BkToCstmrStmt" []]

/-- A document with neither a `Stmt` nor a `Rpt` container. -/
def c8doc : Node := elN "Document" [elN "BkToCstmrAcctRpt" [elN "GrpHdr" [elT "MsgId" "M"]]]

/-- Two entries: the first with a single transaction-detail, the second
with a 1-to-n grouping of two details — the spec's round-trip fixture
shape (three records expected, in document order). -/
def c9entry1 : Node :=
  elN "Ntry" [Node.mk "Amt" (some "10.00") [("Ccy", "EUR")] [],
    elT "CdtDbtInd" "CRDT", elN "BookgDt" [elT "Dt" "2022-03-01"],
    elN "ValDt" [elT "Dt" "2022-03-01"], elT "AcctSvcrRef" "T1",
    elN "NtryDtls" [elN "TxDtls" [elN "Refs" [elT "EndToEndId" "A1"]]]]

def c9entry2 : Node :=
  elN "Ntry" [Node.mk "Amt" (some "50.00") [("Ccy", "EUR")] [],
    elT "CdtDbtInd" "DBIT", elN "BookgDt" [elT "Dt" "2022-03-02"],
    elN "ValDt" [elT "Dt" "2022-03-03"], elT "AcctSvcrRef" "T2",
    elN "NtryDtls" [
      elN "TxDtls" [elN "Refs" [elT "EndToEndId" "B1"], elT "Amt" "20.00"],
      elN "TxDtls" [elN "Refs" [elT "EndToEndId" "B2"], elT "Amt" "30.00"]]]

def c9doc : Node := elN "Document" [elN "BkToCstmrStmt" [elN "Stmt" [c9entry1, c9entry2]]]

/-- The three records `get_transactions` returns for `c9doc`, in
entry-then-detail document order. -/
def c9expected : List PyDict :=
  [[("TransactionID", some "T1"), ("AccountIBAN", none), ("Amount", some "10.00"),
    ("Currency", some "EUR"), ("CreditDebitIndicator", some "CRDT"),
    ("ReversalIndicator", none), ("Status", none), ("BookingDate", some "2022-03-01"),
    ("ValueDate", some "2022-03-01"), ("BankTransactionCode", none),
    ("TransactionFamilyCode", none), ("TransactionSubFamilyCode", none),
    ("AdditionalEntryInformation", none), ("EndToEndId", some "A1")],
   [("TransactionID", some "T2"), ("AccountIBAN", none), ("Amount", some "20.00"),
    ("Currency", some "EUR"), ("CreditDebitIndicator", some "DBIT"),
    ("ReversalIndicator", none), ("Status", none), ("BookingDate", some "2022-03-02"),
    ("ValueDate", some "2022-03-03"), ("BankTransactionCode", none),
    ("TransactionFamilyCode", none), ("TransactionSubFamilyCode", none),
    ("AdditionalEntryInformation", none), ("EndToEndId", some "B1")],
   [("TransactionID", some "T2"), ("AccountIBAN", none), ("Amount", some "30.00"),
    ("Currency", some "EUR"), ("CreditDebitIndicator", some "DBIT"),
    ("ReversalIndicator", none), ("Status", none), ("BookingDate", some "2022-03-02"),
    ("ValueDate", some "2022-03-03"), ("BankTransactionCode", none),
    ("TransactionFamilyCode", none), ("TransactionSubFamilyCode", none),
    ("AdditionalEntryInformation", none), ("EndToEndId", some "B2")]]

/-- A transaction-detail that overrides `Amount` (models a batch member). -/
def c10detail : Node :=
  elN "TxDtls" [elN "Refs" [elT "EndToEndId" "X1"], elT "Amt" "7.00"]

def c10entry : Node :=
  elN "Ntry" [Node.mk "Amt" (some "99.00") [("Ccy", "CHF")] [],
    elT "CdtDbtInd" "CRDT", elN "BookgDt" [elT "Dt" "2023-05-05"],
    elN "ValDt" [elT "Dt" "2023-05-06"], elT "AcctSvcrRef" "Z9", c10detail]

def c10stmt : Node := elN "Stmt" [c10entry]

/-- The `Amt` node of `c10entry` (the entry-level amount carrying `Ccy`). -/
def c10amt : Node := Node.mk "Amt" (some "99.00") [("Ccy", "CHF")] []

def c10common : PyDict :=
  [("TransactionID", some "Z9"), ("AccountIBAN", none), ("Amount", some "99.00"),
   ("Currency", some "CHF"), ("CreditDebitIndicator", some "CRDT"),
   ("ReversalIndicator", none), ("Status", none), ("BookingDate", some "2023-05-05"),
   ("ValueDate", some "2023-05-06"), ("BankTransactionCode", none),
   ("TransactionFamilyCode", none), ("TransactionSubFamilyCode", none),
   ("AdditionalEntryInformation", none)]

lemma PyDict.lookup_append (a b : PyDict) (k : String) :
    PyDict.lookup (a ++ b) k = (PyDict.lookup a k).or (PyDict.lookup b k) := by
  unfold PyDict.lookup
  rw [List.find?_append]
  cases a.find? (fun p => p.1 == k) <;> simp

lemma PyDict.lookup_eq_none_iff (d : PyDict) (k : String) :
    PyDict.lookup d k = none ↔ ∀ p ∈ d, p.1 ≠ k := by
  unfold PyDict.lookup
  simp [List.find?_eq_none]

lemma PyDict.lookup_eq_none_of_not_mem_keys (d : PyDict) (k : String)
    (h : k ∉ d.map Prod.fst) : PyDict.lookup d k = none := by
  rw [PyDict.lookup_eq_none_iff]
  intro p hp hpk
  exact h (hpk ▸ List.mem_map_of_mem Prod.fst hp)

lemma PyDict.hasKey_eq_isSome (d : PyDict) (k : String) :
    PyDict.hasKey d k = (PyDict.lookup d k).isSome := by
  unfold PyDict.hasKey PyDict.lookup
  induction d with
  | nil => simp
  | cons p rest ih =>
    by_cases h : p.1 == k <;> simp [h, List.find?_cons, ih]

lemma PyDict.lookup_map_overwrite (d : PyDict) (k : String) (v : PyVal) :
    PyDict.lookup (d.map (fun p => if p.1 == k then (k, v) else p)) k
      = (PyDict.lookup d k).map (fun _ => v) := by
  unfold PyDict.lookup
  rw [List.find?_map]
  have hpred : ((fun p : String × PyVal => p.1 == k) ∘
      (fun p : String × PyVal => if p.1 == k then (k, v) else p))
      = (fun p : String × PyVal => p.1 == k) := by
    funext p
    by_cases hp : p.1 == k <;> simp [Function.comp, hp]
  rw [hpred]
  rcases hfind : d.find? (fun p => p.1 == k) with _ | q
  · simp [hfind]
  · have hq := List.find?_some hfind
    have hq2 : q.1 = k := by simpa using hq
    simp [hfind, hq2]

lemma PyDict.lookup_map_overwrite_ne (d : PyDict) (k : String) (v : PyVal) (k' : String)
    (h : k' ≠ k) :
    PyDict.lookup (d.map (fun p => if p.1 == k then (k, v) else p)) k'
      = PyDict.lookup d k' := by
  unfold PyDict.lookup
  rw [List.find?_map]
  have hpred : ((fun p : String × PyVal => p.1 == k') ∘
      (fun p : String × PyVal => if p.1 == k then (k, v) else p))
      = (fun p : String × PyVal => p.1 == k') := by
    funext p
    by_cases hp : p.1 == k
    · have hp' : p.1 = k := by simpa using hp
      simp [Function.comp, hp, hp']
      try exact fun hh => absurd hh.symm h
    · simp [Function.comp, hp]
  rw [hpred]
  rcases hfind : d.find? (fun p => p.1 == k') with _ | q
  · simp [hfind]
  · have hq := List.find?_some hfind
    have hq' : q.1 = k' := by simpa using hq
    have hqk : q.1 ≠ k := fun hh => h ((hq'.symm.trans hh))
    simp [hfind, hqk]

lemma PyDict.lookup_set_self (d : PyDict) (k : String) (v : PyVal) :
    PyDict.lookup (PyDict.set d k v) k = some v := by
  unfold PyDict.set
  split
  · rw [PyDict.lookup_map_overwrite]
    rename_i hk
    rw [PyDict.hasKey_eq_isSome] at hk
    rcases hok : PyDict.lookup d k with _ | w
    · rw [hok] at hk; simp at hk
    · simp
  · rw [PyDict.lookup_append]
    rename_i hk
    rw [PyDict.hasKey_eq_isSome] at hk
    rcases hok : PyDict.lookup d k with _ | w
    · simp [PyDict.lookup]
    · rw [hok] at hk; simp at hk

lemma PyDict.lookup_set_ne (d : PyDict) (k : String) (v : PyVal) (k' : String) (h : k' ≠ k) :
    PyDict.lookup (PyDict.set d k v) k' = PyDict.lookup d k' := by
  unfold PyDict.set
  split
  · exact PyDict.lookup_map_overwrite_ne d k v k' h
  · rw [PyDict.lookup_append]
    have hnone : PyDict.lookup [(k, v)] k' = none := by
      have : ¬ ((k : String) == k') = true := by
        simpa using fun hh => h hh.symm
      simp [PyDict.lookup, this]
    rw [hnone]
    cases PyDict.lookup d k' <;> simp

lemma PyDict.keys_map_overwrite (d : PyDict) (k : String) (v : PyVal) :
    (d.map (fun p => if p.1 == k then (k, v) else p)).map Prod.fst = d.map Prod.fst := by
  rw [List.map_map]
  apply List.map_congr_left
  intro p _
  by_cases hp : p.1 == k
  · have hp' : p.1 = k := by simpa using hp
    simp [Function.comp, hp, hp']
  · simp [Function.comp, hp]

lemma PyDict.keys_set (d : PyDict) (k : String) (v : PyVal) :
    (PyDict.set d k v).map Prod.fst =
      if PyDict.hasKey d k then d.map Prod.fst else d.map Prod.fst ++ [k] := by
  unfold PyDict.set
  split <;> rename_i hk
  · rw [PyDict.keys_map_overwrite]
    try simp [hk]
  · simp [hk]

lemma PyDict.get?_eq_join (d : PyDict) (k : String) :
    PyDict.get? d k = (PyDict.lookup d k).join := by
  unfold PyDict.get?
  rcases PyDict.lookup d k with _ | v
  · simp
  · rcases v <;> simp

lemma PyDict.get?_filterSome (d : PyDict) (k : String) (hd : (d.map Prod.fst).Nodup) :
    PyDict.get? (d.filter (fun p => p.2.isSome)) k = (PyDict.lookup d k).join := by
  induction d with
  | nil => simp [PyDict.get?, PyDict.lookup]
  | cons p rest ih =>
    simp only [List.map_cons, List.nodup_cons] at hd
    rw [List.filter_cons]
    by_cases hk : (p.1 == k)
    · have hk' : p.1 = k := by simpa using hk
      have hcons : PyDict.lookup (p :: rest) k = some p.2 := by
        unfold PyDict.lookup
        rw [List.find?_cons_of_pos (p := fun q : String × PyVal => q.1 == k) _ hk]
        rfl
      rcases hv : p.2 with _ | s
      · rw [if_neg (by simp [hv])]
        have hfk : PyDict.lookup (rest.filter (fun p => p.2.isSome)) k = none := by
          apply PyDict.lookup_eq_none_of_not_mem_keys
          intro hmem
          rcases List.mem_map.mp hmem with ⟨q, hq, hqk⟩
          have hqr : q ∈ rest := (List.mem_filter.mp hq).1
          exact absurd (hqk ▸ List.mem_map_of_mem Prod.fst hqr) (hk' ▸ hd.1)
        rw [PyDict.get?_eq_join, hfk, hcons, hv]
        rfl
      · rw [if_pos (by simp [hv])]
        have hres : PyDict.get? (p :: rest.filter (fun q => q.2.isSome)) k = some s := by
          unfold PyDict.get? PyDict.lookup
          rw [List.find?_cons_of_pos (p := fun q : String × PyVal => q.1 == k) _ hk]
          simp [hv]
        rw [hres, hcons, hv]
        rfl
    · have hcons : PyDict.lookup (p :: rest) k = PyDict.lookup rest k := by
        unfold PyDict.lookup
        rw [List.find?_cons_of_neg (p := fun q : String × PyVal => q.1 == k) _ hk]
      rcases hv : p.2 with _ | s
      · rw [if_neg (by simp [hv])]
        rw [ih hd.2, hcons]
      · rw [if_pos (by simp [hv])]
        have hres : PyDict.get? (p :: rest.filter (fun q => q.2.isSome)) k
            = PyDict.get? (rest.filter (fun q => q.2.isSome)) k := by
          unfold PyDict.get? PyDict.lookup
          rw [List.find?_cons_of_neg (p := fun q : String × PyVal => q.1 == k) _ hk]
        rw [hres, ih hd.2, hcons]

lemma PyDict.lookup_cons (x : String × PyVal) (l : PyDict) (k : String) :
    PyDict.lookup (x :: l) k = if (x.1 == k) then some x.2 else PyDict.lookup l k := by
  unfold PyDict.lookup
  by_cases h : (x.1 == k)
  · rw [List.find?_cons_of_pos (p := fun r : String × PyVal => r.1 == k) _ h, if_pos h]
    rfl
  · rw [List.find?_cons_of_neg (p := fun r : String × PyVal => r.1 == k) _ h, if_neg h]

lemma PyDict.lookup_map_mergeLeft (a b : PyDict) (k : String) :
    PyDict.lookup (a.map (fun p =>
        match PyDict.lookup b p.1 with
        | some w => (p.1, w)
        | none => p)) k
      = (PyDict.lookup a k).map (fun v => (PyDict.lookup b k).getD v) := by
  induction a with
  | nil => simp [PyDict.lookup]
  | cons p rest ih =>
    simp only [List.map_cons]
    rcases hb : PyDict.lookup b p.1 with _ | w
    · simp only [hb]
      rw [PyDict.lookup_cons, PyDict.lookup_cons]
      by_cases hpk : (p.1 == k)
      · have hpk' : p.1 = k := by simpa using hpk
        have hbk : PyDict.lookup b k = none := hpk' ▸ hb
        simp [hpk, hbk]
      · simp [hpk, ih]
    · simp only [hb]
      rw [PyDict.lookup_cons, PyDict.lookup_cons]
      by_cases hpk : (p.1 == k)
      · have hpk' : p.1 = k := by simpa using hpk
        have hbk : PyDict.lookup b k = some w := hpk' ▸ hb
        simp [hpk, hbk]
      · simp [hpk, ih]

lemma PyDict.lookup_filter_keyTrue (b : PyDict) (k : String) (q : String × PyVal → Bool)
    (h : ∀ p : String × PyVal, p.1 = k → q p = true) :
    PyDict.lookup (b.filter q) k = PyDict.lookup b k := by
  induction b with
  | nil => simp
  | cons p rest ih =>
    rw [List.filter_cons]
    by_cases hpk : (p.1 == k)
    · have hpk' : p.1 = k := by simpa using hpk
      rw [if_pos (h p hpk')]
      unfold PyDict.lookup
      rw [List.find?_cons_of_pos (p := fun r : String × PyVal => r.1 == k) _ hpk,
        List.find?_cons_of_pos (p := fun r : String × PyVal => r.1 == k) _ hpk]
    · by_cases hqp : q p
      · rw [if_pos hqp]
        unfold PyDict.lookup
        rw [List.find?_cons_of_neg (p := fun r : String × PyVal => r.1 == k) _ hpk,
          List.find?_cons_of_neg (p := fun r : String × PyVal => r.1 == k) _ hpk]
        exact ih
      · rw [if_neg hqp]
        rw [ih]
        unfold PyDict.lookup
        rw [List.find?_cons_of_neg (p := fun r : String × PyVal => r.1 == k) _ hpk]

lemma PyDict.lookup_merge (a b : PyDict) (k : String) :
    PyDict.lookup (PyDict.merge a b) k =
      match PyDict.lookup a k, PyDict.lookup b k with
      | some _, some w => some w
      | some v, none => some v
      | none, bv => bv := by
  unfold PyDict.merge
  rw [PyDict.lookup_append, PyDict.lookup_map_mergeLeft]
  rcases hak : PyDict.lookup a k with _ | v
  · have hnk : ¬ PyDict.hasKey a k = true := by
      rw [PyDict.hasKey_eq_isSome, hak]
      simp
    rw [PyDict.lookup_filter_keyTrue]
    · simp
    · intro p hpk
      simp [hpk, hnk]
  · rcases hbk : PyDict.lookup b k with _ | w <;> simp [hbk]

lemma PyDict.mem_merge {a b : PyDict} {p : String × PyVal} (h : p ∈ PyDict.merge a b) :
    (∃ q ∈ a, p.1 = q.1) ∨ p ∈ b := by
  unfold PyDict.merge at h
  rcases List.mem_append.mp h with h1 | h2
  · rcases List.mem_map.mp h1 with ⟨q, hq, hqe⟩
    left
    refine ⟨q, hq, ?_⟩
    rcases hbq : PyDict.lookup b q.1 with _ | w <;> rw [hbq] at hqe <;>
      exact hqe ▸ rfl
  · right
    exact (List.mem_filter.mp h2).1

/-- Complete case analysis of `_extract_common_entry_data`: either all five
required nodes are found and the 13-key record is returned, or one of them
is missing and the call raises `AttributeError`. -/
lemma extractCommon_spec (e s : Node) :
    (∃ m1 m2 m3 m4 m5,
      findP e [Step.tag "AcctSvcrRef"] = some m1 ∧
      findP e [Step.tag "Amt"] = some m2 ∧
      findP e [Step.tag "CdtDbtInd"] = some m3 ∧
      findP e [Step.tag "BookgDt", Step.wild] = some m4 ∧
      findP e [Step.tag "ValDt", Step.wild] = some m5 ∧
      extractCommonEntryData e s = .ok
        [("TransactionID", m1.text),
         ("AccountIBAN", optionalText s [Step.tag "Acct", Step.tag "Id", Step.tag "IBAN"]),
         ("Amount", m2.text),
         ("Currency", attribGet m2 "Ccy"),
         ("CreditDebitIndicator", m3.text),
         ("ReversalIndicator", optionalText e [Step.tag "RvslInd"]),
         ("Status", parseStatus (findP e [Step.tag "Sts"])),
         ("BookingDate", m4.text),
         ("ValueDate", m5.text),
         ("BankTransactionCode", optionalText e [Step.tag "BkTxCd", Step.tag "Domn", Step.tag "Cd"]),
         ("TransactionFamilyCode",
           optionalText e [Step.tag "BkTxCd", Step.tag "Domn", Step.tag "Fmly", Step.tag "Cd"]),
         ("TransactionSubFamilyCode",
           optionalText e [Step.tag "BkTxCd", Step.tag "Domn", Step.tag "Fmly", Step.tag "SubFmlyCd"]),
         ("AdditionalEntryInformation", optionalText e [Step.tag "AddtlNtryInf"])])
    ∨ ((findP e [Step.tag "AcctSvcrRef"] = none ∨ findP e [Step.tag "Amt"] = none ∨
        findP e [Step.tag "CdtDbtInd"] = none ∨ findP e [Step.tag "BookgDt", Step.wild] = none ∨
        findP e [Step.tag "ValDt", Step.wild] = none) ∧
        extractCommonEntryData e s = .error .attributeError) := by
  rcases hf1 : findP e [Step.tag "AcctSvcrRef"] with _ | m1
  · exact Or.inr ⟨Or.inl rfl,
      by simp [extractCommonEntryData, requiredText, hf1, bind, Except.bind]⟩
  rcases hf2 : findP e [Step.tag "Amt"] with _ | m2
  · exact Or.inr ⟨Or.inr (Or.inl rfl),
      by simp [extractCommonEntryData, requiredText, hf1, hf2, bind, Except.bind]⟩
  rcases hf3 : findP e [Step.tag "CdtDbtInd"] with _ | m3
  · exact Or.inr ⟨Or.inr (Or.inr (Or.inl rfl)),
      by simp [extractCommonEntryData, requiredText, hf1, hf2, hf3, bind, Except.bind]⟩
  rcases hf4 : findP e [Step.tag "BookgDt", Step.wild] with _ | m4
  · exact Or.inr ⟨Or.inr (Or.inr (Or.inr (Or.inl rfl))),
      by simp [extractCommonEntryData, requiredText, hf1, hf2, hf3, hf4, bind, Except.bind]⟩
  rcases hf5 : findP e [Step.tag "ValDt", Step.wild] with _ | m5
  · exact Or.inr ⟨Or.inr (Or.inr (Or.inr (Or.inr rfl))),
      by simp [extractCommonEntryData, requiredText, hf1, hf2, hf3, hf4, hf5, bind, Except.bind]⟩
  exact Or.inl ⟨m1, m2, m3, m4, m5, rfl, rfl, rfl, rfl, rfl,
    by simp [extractCommonEntryData, requiredText, hf1, hf2, hf3, hf4, hf5,
      bind, Except.bind, pure, Except.pure]⟩

/-- A successful common-record extraction always yields exactly the 13
fixed keys, in dict-literal order. -/
lemma extractCommon_keys (e s : Node) (c : PyDict) (h : extractCommonEntryData e s = .ok c) :
    c.map Prod.fst = commonKeys := by
  rcases extractCommon_spec e s with ⟨m1, m2, m3, m4, m5, _, _, _, _, _, hok⟩ | ⟨_, herr⟩
  · rw [h] at hok
    injection hok with hc
    subst hc
    simp [commonKeys]
  · rw [h] at herr
    exact absurd herr (by simp)

/-- A successful common-record extraction implies all five required nodes
were found. -/
lemma extractCommon_found (e s : Node) (c : PyDict) (h : extractCommonEntryData e s = .ok c) :
    (findP e [Step.tag "AcctSvcrRef"]).isSome ∧ (findP e [Step.tag "Amt"]).isSome ∧
    (findP e [Step.tag "CdtDbtInd"]).isSome ∧ (findP e [Step.tag "BookgDt", Step.wild]).isSome ∧
    (findP e [Step.tag "ValDt", Step.wild]).isSome := by
  rcases extractCommon_spec e s with ⟨m1, m2, m3, m4, m5, h1, h2, h3, h4, h5, hok⟩ | ⟨_, herr⟩
  · exact ⟨by simp [h1], by simp [h2], by simp [h3], by simp [h4], by simp [h5]⟩
  · rw [h] at herr
    exact absurd herr (by simp)

/-- Any error raised by `_extract_common_entry_data` is the
`AttributeError` from a bare `find(...).text` on a missing node. -/
lemma extractCommon_error (e s : Node) (err : PyError)
    (h : extractCommonEntryData e s = .error err) : err = .attributeError := by
  rcases extractCommon_spec e s with ⟨m1, m2, m3, m4, m5, _, _, _, _, _, hok⟩ | ⟨_, herr⟩
  · rw [h] at hok
    exact absurd hok (by simp)
  · rw [h] at herr
    injection herr

/-- When any of the five required nodes is missing, the extraction raises
`AttributeError`. -/
lemma extractCommon_error_of_missing (e s : Node)
    (h : findP e [Step.tag "AcctSvcrRef"] = none ∨ findP e [Step.tag "Amt"] = none ∨
      findP e [Step.tag "CdtDbtInd"] = none ∨ findP e [Step.tag "BookgDt", Step.wild] = none ∨
      findP e [Step.tag "ValDt", Step.wild] = none) :
    extractCommonEntryData e s = .error .attributeError := by
  rcases extractCommon_spec e s with ⟨m1, m2, m3, m4, m5, h1, h2, h3, h4, h5, hok⟩ | ⟨_, herr⟩
  · rcases h with h | h | h | h | h
    · rw [h1] at h; exact absurd h (by simp)
    · rw [h2] at h; exact absurd h (by simp)
    · rw [h3] at h; exact absurd h (by simp)
    · rw [h4] at h; exact absurd h (by simp)
    · rw [h5] at h; exact absurd h (by simp)
  · exact herr

/-- The `Currency` value of a successful common record is the `Ccy`
attribute of the first `Amt` descendant of the entry. -/
lemma extractCommon_currency (e s : Node) (c : PyDict) (m : Node)
    (hc : extractCommonEntryData e s = .ok c) (hm : findP e [Step.tag "Amt"] = some m) :
    PyDict.lookup c "Currency" = some (attribGet m "Ccy") := by
  rcases extractCommon_spec e s with ⟨m1, m2, m3, m4, m5, h1, h2, h3, h4, h5, hok⟩ | ⟨_, herr⟩
  · rw [hc] at hok
    injection hok with hcc
    rw [h2] at hm
    injection hm with hm2
    subst hm2
    subst hcc
    simp [PyDict.lookup_cons]
  · rw [hc] at herr
    exact absurd herr (by simp)

/-- A successful `_extract_transaction` is the fan-out of §4.5 applied to
the successfully extracted common record. -/
lemma extractTransaction_eq_fanOut (e s : Node) (c : PyDict)
    (h : extractCommonEntryData e s = .ok c) :
    extractTransaction e s = .ok (specFanOut c e) := by
  unfold extractTransaction specFanOut
  rw [h]
  rcases hgs : findallP e [Step.tag "NtryDtls"] with _ | ⟨g, gs⟩ <;>
    simp [bind, Except.bind, pure, Except.pure, hgs]

/-- Any error raised by `_extract_transaction` is an `AttributeError`. -/
lemma extractTransaction_error (e s : Node) (err : PyError)
    (h : extractTransaction e s = .error err) : err = .attributeError := by
  rcases hc : extractCommonEntryData e s with err' | c
  · unfold extractTransaction at h
    rw [hc] at h
    simp [bind, Except.bind] at h
    rw [← h]
    exact extractCommon_error e s err' hc
  · rw [extractTransaction_eq_fanOut e s c hc] at h
    exact absurd h (by simp)

/-- Every record emitted for an entry is either the common record itself
or the common record merged with some transaction-detail's fields. -/
lemma extractTransaction_mem (e s : Node) (ts : List PyDict)
    (h : extractTransaction e s = .ok ts) :
    ∃ c, extractCommonEntryData e s = .ok c ∧
      ∀ t ∈ ts, t = c ∨ ∃ d, t = PyDict.merge c (extractTransactionDetails d) := by
  rcases hc : extractCommonEntryData e s with err | c
  · unfold extractTransaction at h
    rw [hc] at h
    exact absurd h (by simp [bind, Except.bind])
  · refine ⟨c, rfl, ?_⟩
    rw [extractTransaction_eq_fanOut e s c hc] at h
    injection h with hts
    subst hts
    intro t ht
    unfold specFanOut at ht
    rcases hgs : findallP e [Step.tag "NtryDtls"] with _ | ⟨g, gs⟩ <;> rw [hgs] at ht
    · rcases List.mem_singleton.mp ht with rfl
      exact Or.inl rfl
    · rcases List.mem_flatMap.mp ht with ⟨g', hg', hmem⟩
      rcases hds : findallP g' [Step.tag "TxDtls"] with _ | ⟨d, ds⟩ <;> rw [hds] at hmem
      · rcases List.mem_singleton.mp hmem with rfl
        exact Or.inl rfl
      · rcases ds with _ | ⟨d2, ds'⟩
        · rcases List.mem_singleton.mp hmem with rfl
          exact Or.inr ⟨d, rfl⟩
        · rcases List.mem_map.mp hmem with ⟨d', _, hd'⟩
          exact Or.inr ⟨d', hd'.symm ▸ rfl⟩

/-- Each record of a statement's entry loop comes from some entry. -/
lemma extractEntries_mem (stmt : Node) (es : List Node) (ts : List PyDict)
    (h : extractEntries stmt es = .ok ts) (t : PyDict) (ht : t ∈ ts) :
    ∃ e ∈ es, ∃ l, extractTransaction e stmt = .ok l ∧ t ∈ l := by
  induction es generalizing ts with
  | nil =>
    unfold extractEntries at h
    injection h with h
    subst h
    exact absurd ht (by simp)
  | cons e rest ih =>
    unfold extractEntries at h
    rcases hx : extractTransaction e stmt with err | l <;> rw [hx] at h
    · exact absurd h (by simp [bind, Except.bind])
    rcases hy : extractEntries stmt rest with err | l2 <;> rw [hy] at h
    · exact absurd h (by simp [bind, Except.bind])
    simp [bind, Except.bind, pure, Except.pure] at h
    subst h
    rcases List.mem_append.mp ht with h1 | h2
    · exact ⟨e, List.mem_cons_self e rest, l, hx, h1⟩
    · rcases ih l2 hy h2 with ⟨e', he', l', hl', ht'⟩
      exact ⟨e', List.mem_cons_of_mem e he', l', hl', ht'⟩

/-- Each record of the statement loop comes from some statement's entries. -/
lemma extractStatements_mem (ss : List Node) (ts : List PyDict)
    (h : extractStatements ss = .ok ts) (t : PyDict) (ht : t ∈ ts) :
    ∃ s ∈ ss, ∃ l, extractEntries s (findallP s [Step.tag "Ntry"]) = .ok l ∧ t ∈ l := by
  induction ss generalizing ts with
  | nil =>
    unfold extractStatements at h
    injection h with h
    subst h
    exact absurd ht (by simp)
  | cons s rest ih =>
    unfold extractStatements at h
    rcases hx : extractEntries s (findallP s [Step.tag "Ntry"]) with err | l <;> rw [hx] at h
    · exact absurd h (by simp [bind, Except.bind])
    rcases hy : extractStatements rest with err | l2 <;> rw [hy] at h
    · exact absurd h (by simp [bind, Except.bind])
    simp [bind, Except.bind, pure, Except.pure] at h
    subst h
    rcases List.mem_append.mp ht with h1 | h2
    · exact ⟨s, List.mem_cons_self s rest, l, hx, h1⟩
    · rcases ih l2 hy h2 with ⟨s', hs', l', hl', ht'⟩
      exact ⟨s', List.mem_cons_of_mem s hs', l', hl', ht'⟩

/-- Every record returned by `get_transactions` is a common record or a
common record merged with the fields of some transaction-detail node. -/
lemma getTransactions_record_shape (tree : Node) (ts : List PyDict)
    (h : getTransactions tree = .ok ts) (t : PyDict) (ht : t ∈ ts) :
    ∃ e s c, extractCommonEntryData e s = .ok c ∧
      (t = c ∨ ∃ d, t = PyDict.merge c (extractTransactionDetails d)) := by
  unfold getTransactions at h
  rcases hf : findStatementsOrReports tree with err | ss <;> rw [hf] at h
  · exact absurd h (by simp [bind, Except.bind])
  simp only [bind, Except.bind] at h
  rcases extractStatements_mem ss ts h t ht with ⟨s, _, l, hl, htl⟩
  rcases extractEntries_mem s _ l hl t htl with ⟨e, _, l', hl', htl'⟩
  rcases extractTransaction_mem e s l' hl' with ⟨c, hc, hshape⟩
  exact ⟨e, s, c, hc, hshape t htl'⟩

/-- Any error of the entry loop is an `AttributeError`. -/
lemma extractEntries_error (stmt : Node) (es : List Node) (err : PyError)
    (h : extractEntries stmt es = .error err) : err = .attributeError := by
  induction es with
  | nil =>
    unfold extractEntries at h
    exact absurd h (by simp)
  | cons e rest ih =>
    unfold extractEntries at h
    rcases hx : extractTransaction e stmt with err' | l <;> rw [hx] at h
    · simp [bind, Except.bind] at h
      subst h
      exact extractTransaction_error e stmt err' hx
    rcases hy : extractEntries stmt rest with err' | l2 <;> rw [hy] at h
    · simp [bind, Except.bind] at h
      subst h
      exact ih hy
    · exact absurd h (by simp [bind, Except.bind, pure, Except.pure])

/-- Any error of the statement loop is an `AttributeError`. -/
lemma extractStatements_error (ss : List Node) (err : PyError)
    (h : extractStatements ss = .error err) : err = .attributeError := by
  induction ss with
  | nil =>
    unfold extractStatements at h
    exact absurd h (by simp)
  | cons s rest ih =>
    unfold extractStatements at h
    rcases hx : extractEntries s (findallP s [Step.tag "Ntry"]) with err' | l <;> rw [hx] at h
    · simp [bind, Except.bind] at h
      subst h
      exact extractEntries_error s _ err' hx
    rcases hy : extractStatements rest with err' | l2 <;> rw [hy] at h
    · simp [bind, Except.bind] at h
      subst h
      exact ih hy
    · exact absurd h (by simp [bind, Except.bind, pure, Except.pure])

/-- The entry loop concatenates the per-entry record lists in order. -/
lemma extractEntries_flat (stmt : Node) (es : List Node) (ts : List PyDict)
    (h : extractEntries stmt es = .ok ts) :
    ts = es.flatMap (fun e => (extractTransaction e stmt).toOption.getD []) := by
  induction es generalizing ts with
  | nil =>
    unfold extractEntries at h
    injection h with h
    subst h
    simp
  | cons e rest ih =>
    unfold extractEntries at h
    rcases hx : extractTransaction e stmt with err | l <;> rw [hx] at h
    · exact absurd h (by simp [bind, Except.bind])
    rcases hy : extractEntries stmt rest with err | l2 <;> rw [hy] at h
    · exact absurd h (by simp [bind, Except.bind])
    simp [bind, Except.bind, pure, Except.pure] at h
    subst h
    rw [List.flatMap_cons, ← ih l2 hy, hx]
    rfl

/-- The statement loop concatenates, statement by statement and entry by
entry, in document order. -/
lemma extractStatements_flat (ss : List Node) (ts : List PyDict)
    (h : extractStatements ss = .ok ts) :
    ts = ss.flatMap (fun s => (findallP s [Step.tag "Ntry"]).flatMap
      (fun e => (extractTransaction e s).toOption.getD [])) := by
  induction ss generalizing ts with
  | nil =>
    unfold extractStatements at h
    injection h with h
    subst h
    simp
  | cons s rest ih =>
    unfold extractStatements at h
    rcases hx : extractEntries s (findallP s [Step.tag "Ntry"]) with err | l <;> rw [hx] at h
    · exact absurd h (by simp [bind, Except.bind])
    rcases hy : extractStatements rest with err | l2 <;> rw [hy] at h
    · exact absurd h (by simp [bind, Except.bind])
    simp [bind, Except.bind, pure, Except.pure] at h
    subst h
    rw [List.flatMap_cons, ← ih l2 hy, ← extractEntries_flat s _ l hx]

/-- Any error of the container locator is its `Camt053ParseError`. -/
lemma findStatements_error (tree : Node) (err : PyError)
    (h : findStatementsOrReports tree = .error err) :
    err = .camt053ParseError "Neither 'Stmt' nor 'Rpt' element found" := by
  unfold findStatementsOrReports at h
  by_cases h1 : (findallP tree [Step.tag "Stmt"]).length ≠ 0
  · simp [h1] at h
  · by_cases h2 : (findallP tree [Step.tag "Rpt"]).length ≠ 0
    · simp [h1, h2] at h
    · simp [h1, h2] at h
      exact h.symm

/-- Any error of `get_transactions` is the container-locator's
`Camt053ParseError` or an `AttributeError` from a required entry field. -/
lemma getTransactions_error (tree : Node) (err : PyError)
    (h : getTransactions tree = .error err) :
    err = .attributeError ∨ err = .camt053ParseError "Neither 'Stmt' nor 'Rpt' element found" := by
  unfold getTransactions at h
  rcases hf : findStatementsOrReports tree with err' | ss <;> rw [hf] at h
  · simp [bind, Except.bind] at h
    subst h
    exact Or.inr (findStatements_error tree err' hf)
  · simp only [bind, Except.bind] at h
    exact Or.inl (extractStatements_error ss err h)

/-- The fan-out count: one record for an entry without groupings, and for
each grouping one record per transaction-detail, at least one. -/
lemma specFanOut_length (c : PyDict) (e : Node) :
    (specFanOut c e).length =
      match findallP e [Step.tag "NtryDtls"] with
      | [] => 1
      | gs => (gs.map (fun g => max (findallP g [Step.tag "TxDtls"]).length 1)).sum := by
  unfold specFanOut
  rcases hgs : findallP e [Step.tag "NtryDtls"] with _ | ⟨g, gs⟩
  · rfl
  · rw [List.length_flatMap]
    congr 1
    apply List.map_congr_left
    intro g' _
    simp only [Function.comp]
    rcases hds : findallP g' [Step.tag "TxDtls"] with _ | ⟨d, _ | ⟨d2, ds⟩⟩ <;>
      simp only [hds, List.length_map, List.length_cons, List.length_nil] <;> omega

/-- Every value in the sparse detail record is a present string — the
final dict comprehension filters out the `None`s. -/
lemma extractTransactionDetails_isSome (d : Node) (p : String × PyVal)
    (hp : p ∈ extractTransactionDetails d) : p.2.isSome := by
  unfold extractTransactionDetails at hp
  exact (List.mem_filter.mp hp).2

/-- Membership in a Python dict after `d[k] = v`: the key is `k` or one of
`d`'s keys. -/
lemma PyDict.mem_set (d : PyDict) (k : String) (v : PyVal) (p : String × PyVal)
    (hp : p ∈ PyDict.set d k v) : p.1 = k ∨ ∃ q ∈ d, p.1 = q.1 := by
  unfold PyDict.set at hp
  split at hp
  · rcases List.mem_map.mp hp with ⟨q, hq, hqe⟩
    by_cases hqk : (q.1 == k)
    · rw [if_pos hqk] at hqe
      left
      rw [← hqe]
    · rw [if_neg hqk] at hqe
      right
      exact ⟨q, hq, by rw [← hqe]⟩
  · rcases List.mem_append.mp hp with hmem | hmem
    · right
      exact ⟨p, hmem, rfl⟩
    · left
      rw [List.mem_singleton.mp hmem]

/-- The key list of the detail dict literal. -/
lemma detailData_keys_eq (d : Node) :
    (detailData d).map Prod.fst =
      ["EndToEndId", "MandateId", "Amount", "CreditorName", "CreditorIBAN", "DebtorName",
       "DebtorIBAN", "PurposeCode", "RemittanceInformation", "RemittanceInformationFull"] := by
  simp [detailData]

/-- The keys of the detail extractor's dict literal. -/
lemma detailData_keys (d : Node) (q : String × PyVal) (hq : q ∈ detailData d) :
    q.1 ∈ detailKeys := by
  have := List.mem_map_of_mem Prod.fst hq
  rw [detailData_keys_eq] at this
  revert this
  simp only [List.mem_cons, List.not_mem_nil, or_false]
  intro hmem
  rcases hmem with h | h | h | h | h | h | h | h | h | h <;> rw [h] <;> simp [detailKeys]

/-- Every key in the sparse detail record is one of the eleven keys the
detail extractor can produce. -/
lemma extractTransactionDetails_keys (d : Node) (p : String × PyVal)
    (hp : p ∈ extractTransactionDetails d) : p.1 ∈ detailKeys := by
  unfold extractTransactionDetails at hp
  have hp' := (List.mem_filter.mp hp).1
  rcases hstrd : findP d [Step.tag "RmtInf", Step.tag "Strd"] with _ | strd <;>
    rw [hstrd] at hp'
  · exact detailData_keys d p hp'
  · rcases PyDict.mem_set _ _ _ _ hp' with hk | ⟨q, hq, hqe⟩
    · rw [hk]
      simp [detailKeys]
    · rcases PyDict.mem_set _ _ _ _ hq with hk2 | ⟨r, hr, hre⟩
      · rw [hqe, hk2]
        simp [detailKeys]
      · rw [hqe, hre]
        exact detailData_keys d r hr

/-- The sparse detail record's `get?` is the join of the pre-filter dict's
lookup: filtering `None`s turns "present with `None`" into "absent". -/
lemma extractTransactionDetails_get? (d : Node) (k : String) :
    PyDict.get? (extractTransactionDetails d) k =
      (PyDict.lookup
        (match findP d [Step.tag "RmtInf", Step.tag "Strd"] with
         | none => detailData d
         | some strd =>
           PyDict.set
             (PyDict.set (detailData d) "RemittanceInformation"
               ((findP strd [Step.tag "CdtrRefInf", Step.tag "Ref"]).bind Node.text))
             "AdditionalRemittanceInformation"
             ((findP strd [Step.tag "AddtlRmtInf"]).bind Node.text)) k).join := by
  unfold extractTransactionDetails
  rcases hstrd : findP d [Step.tag "RmtInf", Step.tag "Strd"] with _ | strd <;>
    simp only [hstrd]
  · apply PyDict.get?_filterSome
    rw [detailData_keys_eq]
    decide
  · apply PyDict.get?_filterSome
    rw [PyDict.keys_set]
    have h2 : PyDict.hasKey
        (PyDict.set (detailData d) "RemittanceInformation"
          ((findP strd [Step.tag "CdtrRefInf", Step.tag "Ref"]).bind Node.text))
        "AdditionalRemittanceInformation" = false := by
      rw [PyDict.hasKey_eq_isSome, PyDict.lookup_set_ne _ _ _ _ (by decide),
        PyDict.lookup_eq_none_of_not_mem_keys]
      · rfl
      · rw [detailData_keys_eq]
        decide
    rw [h2]
    simp only [if_false, Bool.false_eq_true]
    rw [PyDict.keys_set]
    have h1 : PyDict.hasKey (detailData d) "RemittanceInformation" = true := by
      rw [PyDict.hasKey_eq_isSome, detailData]
      simp [PyDict.lookup_cons]
    rw [h1]
    simp only [if_true]
    rw [detailData_keys_eq]
    decide

/-- `RemittanceInformationFull` in the sparse record is exactly the
unstructured-lines computation, untouched by the structured block. -/
lemma detail_get_full (d : Node) :
    PyDict.get? (extractTransactionDetails d) "RemittanceInformationFull"
      = remittanceInformationFull d := by
  rw [extractTransactionDetails_get?]
  rcases hstrd : findP d [Step.tag "RmtInf", Step.tag "Strd"] with _ | strd <;>
    simp only [hstrd]
  · rw [detailData]
    simp [PyDict.lookup_cons]
  · rw [PyDict.lookup_set_ne _ _ _ _ (by decide), PyDict.lookup_set_ne _ _ _ _ (by decide),
      detailData]
    simp [PyDict.lookup_cons]

/-- With a structured block present, `RemittanceInformation` in the sparse
record is the structured creditor reference's text (absent when the
reference child is missing or text-less). -/
lemma detail_get_remInfo (d strd : Node)
    (hstrd : findP d [Step.tag "RmtInf", Step.tag "Strd"] = some strd) :
    PyDict.get? (extractTransactionDetails d) "RemittanceInformation"
      = (findP strd [Step.tag "CdtrRefInf", Step.tag "Ref"]).bind Node.text := by
  rw [extractTransactionDetails_get?, hstrd]
  simp only []
  rw [PyDict.lookup_set_ne _ _ _ _ (by decide), PyDict.lookup_set_self]
  rfl

/-- With a structured block present, `AdditionalRemittanceInformation` in
the sparse record is the free-text child's text (absent when the child is
missing or text-less). -/
lemma detail_get_addtl (d strd : Node)
    (hstrd : findP d [Step.tag "RmtInf", Step.tag "Strd"] = some strd) :
    PyDict.get? (extractTransactionDetails d) "AdditionalRemittanceInformation"
      = (findP strd [Step.tag "AddtlRmtInf"]).bind Node.text := by
  rw [extractTransactionDetails_get?, hstrd]
  simp only []
  rw [PyDict.lookup_set_self]
  rfl

/-- The detail extractor never emits a `Currency` key. -/
lemma detail_no_currency (d : Node) :
    PyDict.lookup (extractTransactionDetails d) "Currency" = none := by
  apply PyDict.lookup_eq_none_of_not_mem_keys
  intro hmem
  rcases List.mem_map.mp hmem with ⟨p, hp, hpk⟩
  have hk := extractTransactionDetails_keys d p hp
  rw [hpk] at hk
  revert hk
  rw [detailKeys]
  decide

/-- C1: the claim that no key of any returned transaction is ever bound to
a `None` placeholder is false — `_extract_common_entry_data` stores `None`
for absent optional nodes.  Here the entry has no `RvslInd` node, yet the
returned record binds `ReversalIndicator` to `None` instead of omitting
the key. -/
theorem C1_counterexample :
    findP c1entry [Step.tag "RvslInd"] = none ∧
    getTransactions c1doc = Except.ok [c1record] ∧
    PyDict.lookup c1record "ReversalIndicator" = some none :=
  ⟨rfl, rfl, rfl⟩

/-- C1 (amended): the sparse-dictionary invariant holds only for the
detail tier — every detail-extracted value is a present string — while
the common record always carries all 13 fixed keys, with `None`
placeholders for absent optional nodes; consequently a `None`-valued
binding in any record returned by `transactions()` can only sit at one of
the 13 common keys. -/
theorem C1_sparse_amended :
    (∀ d p, p ∈ extractTransactionDetails d → p.2.isSome = true) ∧
    (∀ e s c, extractCommonEntryData e s = .ok c → c.map Prod.fst = commonKeys) ∧
    (∀ tree ts, getTransactions tree = .ok ts →
      ∀ t ∈ ts, ∀ p ∈ t, p.2 = none → p.1 ∈ commonKeys) := by
  refine ⟨extractTransactionDetails_isSome, extractCommon_keys, ?_⟩
  intro tree ts h t ht p hp hpnone
  rcases getTransactions_record_shape tree ts h t ht with ⟨e, s, c, hc, hshape⟩
  have hkeys := extractCommon_keys e s c hc
  rcases hshape with rfl | ⟨d, rfl⟩
  · rw [← hkeys]
    exact List.mem_map_of_mem Prod.fst hp
  · rcases PyDict.mem_merge hp with ⟨q, hq, hqe⟩ | hpb
    · rw [hqe, ← hkeys]
      exact List.mem_map_of_mem Prod.fst hq
    · have hsome := extractTransactionDetails_isSome d p hpb
      rw [hpnone] at hsome
      exact absurd hsome (by simp)

/-- C1 witness: instantiating the amended claim on the concrete document
whose record binds `ReversalIndicator` to `None`. -/
theorem C1_witness : "ReversalIndicator" ∈ commonKeys :=
  C1_sparse_amended.2.2 c1doc [c1record] rfl c1record (List.mem_singleton.mpr rfl)
    ("ReversalIndicator", none) (by decide) rfl

/-- C2: the claim that a debit balance's amount text is negated
"preserving its textual form" is false — `str(-float("100.00"))` is
`"-100.0"`, not `"-100.00"`: Python float formatting drops the trailing
zero. -/
theorem C2_counterexample :
    getStatementInfo c2doc = Except.ok [c2result] ∧
    PyDict.lookup c2result "ClosingBalance" = some (some "-100.0") ∧
    ("-100.0" : String) ≠ "-100.00" :=
  ⟨rfl, rfl, by decide⟩

/-- C2 (amended): for a debit balance the amount text is replaced by the
Python string of the negated float — the minimal decimal rendering, which
does not preserve the original textual form — while amount text that
fails float parsing is kept unchanged and no error is raised; on the
two-balance document, `"abc"` stays `"abc"` and `"100.00"` becomes
`"-100.0"`. -/
theorem C2_sign_amended :
    (∀ s ind, pyFloatParse? s = none → applyBalanceSign (some s) ind = some s) ∧
    (∀ s (neg : Bool) (mag scale : Nat), s ≠ "" →
      pyFloatParse? s = some (neg, mag, scale) →
      applyBalanceSign (some s) (some "DBIT") = some (pyFloatStr (!neg) mag scale)) ∧
    getStatementInfo c2doc = Except.ok [c2result] := by
  refine ⟨?_, ?_, rfl⟩
  · intro s ind h
    simp only [applyBalanceSign]
    split
    · rw [h]
    · rfl
  · intro s neg mag scale hne h
    simp only [applyBalanceSign]
    rw [if_pos ⟨hne, trivial⟩, h]

/-- C2 witness: the amended sign rule evaluated at `"abc"` (unparseable,
kept) and `"100.00"` (negated to `"-100.0"`). -/
theorem C2_witness :
    applyBalanceSign (some "abc") (some "DBIT") = some "abc" ∧
    applyBalanceSign (some "100.00") (some "DBIT") = some "-100.0" := by
  constructor
  · exact C2_sign_amended.1 "abc" (some "DBIT") (by decide)
  · have h := C2_sign_amended.2.1 "100.00" false 10000 2 (by decide) (by decide)
    rw [h]
    rfl

/-- C3: the claim that an entry with a missing required field fails with
the structural parse error type is false — the code dereferences the
`None` returned by `find` and raises `AttributeError` instead.  Here the
entry has no `AcctSvcrRef` (TransactionID source) node. -/
theorem C3_counterexample :
    findP c3entry [Step.tag "AcctSvcrRef"] = none ∧
    getTransactions c3doc = Except.error PyError.attributeError ∧
    raisesParseError (getTransactions c3doc) = false :=
  ⟨rfl, rfl, rfl⟩

/-- C3 (amended): when TransactionID, Amount, CreditDebitIndicator,
BookingDate or ValueDate cannot be located the extraction fails with
`AttributeError`, and every failure of `transactions()` is either such an
`AttributeError` or the container locator's `Camt053ParseError`. -/
theorem C3_error_amended :
    (∀ e s, (findP e [Step.tag "AcctSvcrRef"] = none ∨ findP e [Step.tag "Amt"] = none ∨
        findP e [Step.tag "CdtDbtInd"] = none ∨ findP e [Step.tag "BookgDt", Step.wild] = none ∨
        findP e [Step.tag "ValDt", Step.wild] = none) →
      extractCommonEntryData e s = .error .attributeError) ∧
    (∀ tree err, getTransactions tree = .error err →
      err = .attributeError ∨
        err = .camt053ParseError "Neither 'Stmt' nor 'Rpt' element found") :=
  ⟨extractCommon_error_of_missing, getTransactions_error⟩

/-- C3 witness: the amended claim applied to the concrete entry that lacks
`AcctSvcrRef`. -/
theorem C3_witness :
    extractCommonEntryData c3entry c3stmt = Except.error PyError.attributeError ∧
    (PyError.attributeError = PyError.attributeError ∨
      PyError.attributeError = PyError.camt053ParseError "Neither 'Stmt' nor 'Rpt' element found") :=
  ⟨C3_error_amended.1 c3entry c3stmt (Or.inl rfl),
   C3_error_amended.2 c3doc PyError.attributeError rfl⟩

/-- C4: the fan-out of an entry into transaction records — exactly the
common record for zero groupings; per grouping, the common record alone
for zero details, and one record per detail (common merged with detail,
detail values winning on key collision) otherwise; the record count is 1
for zero groupings and the sum over groupings of max(details, 1). -/
theorem C4_fanout :
    ∀ e s c, extractCommonEntryData e s = .ok c →
      extractTransaction e s = .ok (specFanOut c e) ∧
      (findallP e [Step.tag "NtryDtls"] = [] → specFanOut c e = [c]) ∧
      ((specFanOut c e).length =
        match findallP e [Step.tag "NtryDtls"] with
        | [] => 1
        | gs => (gs.map (fun g => max (findallP g [Step.tag "TxDtls"]).length 1)).sum) ∧
      (∀ d k w, PyDict.lookup (extractTransactionDetails d) k = some w →
        PyDict.lookup (PyDict.merge c (extractTransactionDetails d)) k = some w) := by
  intro e s c h
  refine ⟨extractTransaction_eq_fanOut e s c h, ?_, specFanOut_length c e, ?_⟩
  · intro hgs
    unfold specFanOut
    rw [hgs]
  · intro d k w hw
    rw [PyDict.lookup_merge, hw]
    rcases hck : PyDict.lookup c k with _ | v <;> rfl

/-- C4 witness: the entry with one grouping of two transaction-details
fans out into exactly two merged records. -/
theorem C4_witness :
    extractTransaction c4entry c4stmt = Except.ok (specFanOut c4common c4entry) ∧
    (specFanOut c4common c4entry).length = 2 := by
  have h := C4_fanout c4entry c4stmt c4common rfl
  refine ⟨h.1, ?_⟩
  rw [h.2.2.1]
  decide

/-- C5: the claim that `AdditionalRemittanceInformation` is present iff
the structured block's free-text child is present is false — a present
but text-less `AddtlRmtInf` child yields no key, because the `None` text
is filtered out by the sparse-dictionary step. -/
theorem C5_counterexample :
    findP c5cexdetail [Step.tag "RmtInf", Step.tag "Strd"] = some c5cexstrd ∧
    findP c5cexstrd [Step.tag "AddtlRmtInf"] = some c5cexaddtl ∧
    PyDict.hasKey (extractTransactionDetails c5cexdetail) "AdditionalRemittanceInformation"
      = false :=
  ⟨rfl, rfl, by decide⟩

/-- C5 (amended): under a structured remittance block,
`RemittanceInformation` equals the reference child's text (absent when
that child is missing or carries no text, even if unstructured text
exists), `AdditionalRemittanceInformation` equals the free-text child's
text (present iff that child is present *with text*), and
`RemittanceInformationFull` is the unstructured computation, unaffected
by the block. -/
theorem C5_structured_amended :
    ∀ d strd, findP d [Step.tag "RmtInf", Step.tag "Strd"] = some strd →
      PyDict.get? (extractTransactionDetails d) "RemittanceInformation"
        = (findP strd [Step.tag "CdtrRefInf", Step.tag "Ref"]).bind Node.text ∧
      PyDict.get? (extractTransactionDetails d) "AdditionalRemittanceInformation"
        = (findP strd [Step.tag "AddtlRmtInf"]).bind Node.text ∧
      PyDict.get? (extractTransactionDetails d) "RemittanceInformationFull"
        = remittanceInformationFull d :=
  fun d strd h =>
    ⟨detail_get_remInfo d strd h, detail_get_addtl d strd h, detail_get_full d⟩

/-- C5 witness: a structured block with reference `REF1` and no free-text
child, over two unstructured lines: `RemittanceInformation` is `REF1`,
no `AdditionalRemittanceInformation` key, and the full field still joins
the unstructured lines. -/
theorem C5_witness :
    PyDict.get? (extractTransactionDetails c5wdetail) "RemittanceInformation" = some "REF1" ∧
    PyDict.get? (extractTransactionDetails c5wdetail) "AdditionalRemittanceInformation" = none ∧
    PyDict.get? (extractTransactionDetails c5wdetail) "RemittanceInformationFull"
      = some "hello world" := by
  have h := C5_structured_amended c5wdetail c5wstrd rfl
  refine ⟨?_, ?_, ?_⟩
  · rw [h.1]
    rfl
  · rw [h.2.1]
    rfl
  · rw [h.2.2]
    decide

/-- C6: the claim that `RemittanceInformationFull` joins the trimmed
non-empty lines is false on a whitespace-only line — the code filters on
the *untrimmed* text and trims afterwards, so lines `["a", " ", "b"]`
yield `"a  b"` (an empty segment joined in), not `"a b"` as the claim's
rule computes. -/
theorem C6_counterexample :
    PyDict.get? (extractTransactionDetails c6detail) "RemittanceInformationFull"
      = some "a  b" ∧
    specRemittanceFull ["a", " ", "b"] = some "a b" ∧
    ("a  b" : String) ≠ "a b" :=
  ⟨by decide, by decide, by decide⟩

/-- C6 (amended): `RemittanceInformationFull` keeps the lines whose
untrimmed text is non-empty, trims each of those, and joins them with
single spaces (a whitespace-only line therefore contributes an empty
segment); the key is absent when zero unstructured lines exist; on the
claim's examples, `["a","b","c"]` gives `"a b c"` and `["x"]` gives
`"x"`. -/
theorem C6_full_amended :
    (∀ d, PyDict.get? (extractTransactionDetails d) "RemittanceInformationFull"
      = remittanceInformationFull d) ∧
    PyDict.get? (extractTransactionDetails c6abc) "RemittanceInformationFull" = some "a b c" ∧
    PyDict.get? (extractTransactionDetails c6x) "RemittanceInformationFull" = some "x" ∧
    PyDict.hasKey (extractTransactionDetails c6zero) "RemittanceInformationFull" = false :=
  ⟨detail_get_full, by decide, by decide, by decide⟩

/-- C7: the claim that a header with a missing `MsgId` or `CreDtTm` child
fails with the structural parse error type is false — the code raises
`AttributeError` from dereferencing the failed `find`.  (The
absent-header half of the claim is true and kept in the amended form.) -/
theorem C7_counterexample :
    findP c7doc [Step.tag "GrpHdr"] = some c7hdr ∧
    findP c7hdr [Step.tag "MsgId"] = none ∧
    getGroupHeader c7doc = Except.error PyError.attributeError ∧
    raisesParseError (getGroupHeader c7doc) = false :=
  ⟨rfl, rfl, rfl, rfl⟩

/-- C7 (amended): with no header node anywhere, `get_group_header`
returns the empty record (not an error); with a header present but
`MsgId` or `CreDtTm` missing, it fails with `AttributeError`, not the
parser's structural error type. -/
theorem C7_header_amended :
    (∀ tree, findP tree [Step.tag "GrpHdr"] = none → getGroupHeader tree = .ok []) ∧
    (∀ tree g, findP tree [Step.tag "GrpHdr"] = some g →
      (findP g [Step.tag "MsgId"] = none ∨ findP g [Step.tag "CreDtTm"] = none) →
      getGroupHeader tree = .error .attributeError) := by
  constructor
  · intro tree h
    unfold getGroupHeader
    rw [h]
  · intro tree g hg hmiss
    unfold getGroupHeader
    rw [hg]
    unfold extractGroupHeader
    rcases hm : findP g [Step.tag "MsgId"] with _ | m
    · simp [requiredText, hm, bind, Except.bind]
    · rcases hmiss with hmiss | hmiss
      · rw [hm] at hmiss
        exact absurd hmiss (by simp)
      · simp [requiredText, hm, hmiss, bind, Except.bind]

/-- C7 witness: the empty-header document returns the empty record; the
header lacking `MsgId` raises `AttributeError`. -/
theorem C7_witness :
    getGroupHeader c7nohdr = Except.ok [] ∧
    getGroupHeader c7doc = Except.error PyError.attributeError :=
  ⟨C7_header_amended.1 c7nohdr rfl, C7_header_amended.2 c7doc c7hdr rfl (Or.inl rfl)⟩

/-- C8: the container locator prefers `Stmt` nodes, falls back to `Rpt`
nodes only when zero `Stmt` nodes match, and raises its
`Camt053ParseError` when both match zero — in which case
`get_transactions` and `get_statement_info` fail with that same error. -/
theorem C8_container_order :
    (∀ tree, findallP tree [Step.tag "Stmt"] ≠ [] →
      findStatementsOrReports tree = .ok (findallP tree [Step.tag "Stmt"])) ∧
    (∀ tree, findallP tree [Step.tag "Stmt"] = [] → findallP tree [Step.tag "Rpt"] ≠ [] →
      findStatementsOrReports tree = .ok (findallP tree [Step.tag "Rpt"])) ∧
    (∀ tree, findallP tree [Step.tag "Stmt"] = [] → findallP tree [Step.tag "Rpt"] = [] →
      findStatementsOrReports tree
          = .error (.camt053ParseError "Neither 'Stmt' nor 'Rpt' element found") ∧
      getTransactions tree
          = .error (.camt053ParseError "Neither 'Stmt' nor 'Rpt' element found") ∧
      getStatementInfo tree
          = .error (.camt053ParseError "Neither 'Stmt' nor 'Rpt' element found")) := by
  refine ⟨?_, ?_, ?_⟩
  · intro tree h
    unfold findStatementsOrReports
    rw [if_pos (by simpa [List.length_eq_zero] using h)]
  · intro tree h1 h2
    unfold findStatementsOrReports
    rw [if_neg (by simp [h1]), if_pos (by simpa [List.length_eq_zero] using h2)]
  · intro tree h1 h2
    have hfind : findStatementsOrReports tree
        = .error (.camt053ParseError "Neither 'Stmt' nor 'Rpt' element found") := by
      unfold findStatementsOrReports
      rw [if_neg (by simp [h1]), if_neg (by simp [h2])]
    refine ⟨hfind, ?_, ?_⟩
    · unfold getTransactions
      rw [hfind]
      rfl
    · unfold getStatementInfo
      rw [hfind]
      rfl

/-- C8 witness: the document with neither container raises the parse
error from all three operations. -/
theorem C8_witness :
    findStatementsOrReports c8doc
        = Except.error (PyError.camt053ParseError "Neither 'Stmt' nor 'Rpt' element found") ∧
    getTransactions c8doc
        = Except.error (PyError.camt053ParseError "Neither 'Stmt' nor 'Rpt' element found") ∧
    getStatementInfo c8doc
        = Except.error (PyError.camt053ParseError "Neither 'Stmt' nor 'Rpt' element found") :=
  C8_container_order.2.2 c8doc rfl rfl

/-- C9: the flat list of `get_transactions` is the in-order concatenation,
statement by statement and entry by entry (both in document order), of
each entry's fan-out, and each entry's fan-out lists its groupings' and
details' records in document order. -/
theorem C9_order :
    ∀ tree stmts ts, findStatementsOrReports tree = .ok stmts →
      getTransactions tree = .ok ts →
      ts = stmts.flatMap (fun s => (findallP s [Step.tag "Ntry"]).flatMap
        (fun e => (extractTransaction e s).toOption.getD [])) ∧
      (∀ s e c, extractCommonEntryData e s = .ok c →
        extractTransaction e s = .ok (specFanOut c e)) := by
  intro tree stmts ts hf ht
  constructor
  · unfold getTransactions at ht
    rw [hf] at ht
    simp only [bind, Except.bind] at ht
    exact extractStatements_flat stmts ts ht
  · intro s e c hc
    exact extractTransaction_eq_fanOut e s c hc

/-- C9 witness: the two-entry fixture (a 1-to-1 entry followed by a
1-to-2 entry) flattens to its three records in entry-then-detail document
order. -/
theorem C9_witness :
    c9expected = (findallP c9doc [Step.tag "Stmt"]).flatMap (fun s =>
      (findallP s [Step.tag "Ntry"]).flatMap
        (fun e => (extractTransaction e s).toOption.getD [])) :=
  (C9_order c9doc (findallP c9doc [Step.tag "Stmt"]) c9expected rfl rfl).1

/-- C10: detail extraction never produces a `Currency` key, so the merge
leaves the record's `Currency` binding exactly as the common record set
it — the `Ccy` attribute of the entry-level amount node — even when the
detail overrides `Amount`. -/
theorem C10_currency_frame :
    (∀ d, PyDict.lookup (extractTransactionDetails d) "Currency" = none) ∧
    (∀ c d, PyDict.lookup (PyDict.merge c (extractTransactionDetails d)) "Currency"
      = PyDict.lookup c "Currency") ∧
    (∀ e s c m, extractCommonEntryData e s = .ok c → findP e [Step.tag "Amt"] = some m →
      PyDict.lookup c "Currency" = some (attribGet m "Ccy")) := by
  refine ⟨detail_no_currency, ?_, extractCommon_currency⟩
  intro c d
  rw [PyDict.lookup_merge, detail_no_currency]
  rcases hck : PyDict.lookup c "Currency" with _ | v <;> rfl

/-- C10 witness: on the concrete entry, the `Currency` binding is the
`Ccy` attribute of its entry-level `Amt` node. -/
theorem C10_witness :
    PyDict.lookup c10common "Currency" = some (attribGet c10amt "Ccy") :=
  C10_currency_frame.2.2 c10entry c10stmt c10common c10amt rfl rfl
